import Mathlib

/-!
Verification of the pathology-readouts dashboard notebook
(`packages/demo/notebook.py`).

The notebook's pure logic is embedded shallowly:

* Python strings become Lean `String`s.  The notebook applies
  `str.upper()`, `str.lower()` and `str.capitalize()` only to ASCII
  category labels, statistic names and templates, so the ASCII case maps
  `Char.toUpper` / `Char.toLower` model them exactly on all inputs the
  notebook produces.
* Python dicts built by comprehensions with provably distinct keys become
  association lists in insertion order.
* The single-placeholder format templates (f-strings containing a literal
  `\x7b\x7d`) become a `ColumnTemplate` holding the text before and after the
  placeholder; `str.format` with one argument is concatenation around it.
* The global `plot_index` counter becomes explicit state passing.
* Exceptions (`assert`, `KeyError` from dict / dataframe column lookup)
  become `Option`, with `none` for the raised case.
-/

namespace DemoNotebook

/-! ### String normalization (`to_allcaps`, lines 158-159) -/

/-- Model of the `.replace(" ", "_")` step: it rewrites each space
character to an underscore (space is a single char, so the string-level
replace is the character-wise map). -/
def underscoreSpace (c : Char) : Char :=
  if c = ' ' then '_' else c

/-- `to_allcaps(cls)` from the source: `cls.upper().replace(" ", "_")`.
`Char.toUpper` is the ASCII uppercase map, which agrees with Python
`str.upper` on the ASCII strings this notebook feeds in. -/
def to_allcaps (s : String) : String :=
  ⟨(s.data.map Char.toUpper).map underscoreSpace⟩

/-- Python `str.capitalize()`: first character uppercased, all remaining
characters lowercased (ASCII model). Used for titles and y-labels in
`plot_boxplot`. -/
def pyCapitalize (s : String) : String :=
  match s.data with
  | [] => ""
  | c :: cs => ⟨Char.toUpper c :: cs.map Char.toLower⟩

/-! ### Character-level lemmas -/

theorem toNat_ofNat_valid (n : Nat) (h : n.isValidChar) :
    (Char.ofNat n).toNat = n := by
  simp only [Char.ofNat, dif_pos h, Char.ofNatAux, Char.toNat]
  simp [UInt32.toNat]

theorem toUpper_toNat (c : Char) :
    (Char.toUpper c).toNat =
      if 97 ≤ c.toNat ∧ c.toNat ≤ 122 then c.toNat - 32 else c.toNat := by
  unfold Char.toUpper
  by_cases h : c.toNat ≥ 97 ∧ c.toNat ≤ 122
  · rw [if_pos h, if_pos ⟨h.1, h.2⟩]
    exact toNat_ofNat_valid _ (Or.inl (by omega))
  · rw [if_neg h, if_neg (by omega)]

theorem toUpper_not_lower (c : Char) :
    ¬(97 ≤ (Char.toUpper c).toNat ∧ (Char.toUpper c).toNat ≤ 122) := by
  rw [toUpper_toNat]
  by_cases h : 97 ≤ c.toNat ∧ c.toNat ≤ 122
  · rw [if_pos h]; omega
  · rw [if_neg h]; omega

theorem toUpper_of_not_lower (c : Char)
    (h : ¬(97 ≤ c.toNat ∧ c.toNat ≤ 122)) : Char.toUpper c = c := by
  unfold Char.toUpper
  rw [if_neg (by omega)]

theorem toUpper_idem (c : Char) :
    Char.toUpper (Char.toUpper c) = Char.toUpper c :=
  toUpper_of_not_lower _ (toUpper_not_lower c)

theorem underscoreSpace_not_lower (c : Char)
    (h : ¬(97 ≤ c.toNat ∧ c.toNat ≤ 122)) :
    ¬(97 ≤ (underscoreSpace c).toNat ∧ (underscoreSpace c).toNat ≤ 122) := by
  unfold underscoreSpace
  by_cases hs : c = ' '
  · rw [if_pos hs]; decide
  · rwa [if_neg hs]

theorem underscoreSpace_idem (c : Char) :
    underscoreSpace (underscoreSpace c) = underscoreSpace c := by
  unfold underscoreSpace
  by_cases hs : c = ' '
  · rw [if_pos hs]; decide
  · rw [if_neg hs, if_neg hs]

theorem allcapsChar_idem (c : Char) :
    underscoreSpace (Char.toUpper (underscoreSpace (Char.toUpper c))) =
      underscoreSpace (Char.toUpper c) := by
  rw [toUpper_of_not_lower _ (underscoreSpace_not_lower _ (toUpper_not_lower c)),
    underscoreSpace_idem]

/-! ### String-level lemmas for `to_allcaps` -/

theorem to_allcaps_data (s : String) :
    (to_allcaps s).data = s.data.map (fun c => underscoreSpace (Char.toUpper c)) := by
  simp [to_allcaps]

theorem to_allcaps_append (s t : String) :
    to_allcaps (s ++ t) = to_allcaps s ++ to_allcaps t := by
  apply String.ext
  simp [to_allcaps_data]

theorem to_allcaps_idem (s : String) :
    to_allcaps (to_allcaps s) = to_allcaps s := by
  apply String.ext
  simp only [to_allcaps_data, List.map_map]
  exact List.map_congr_left fun c _ => allcapsChar_idem c

theorem to_allcaps_inj_affix {pre post x y : String}
    (h : pre ++ x ++ post = pre ++ y ++ post) : x = y := by
  apply String.ext
  have hd : pre.data ++ x.data ++ post.data = pre.data ++ y.data ++ post.data := by
    have := congrArg String.data h
    simpa using this
  exact List.append_cancel_left (List.append_cancel_right hd)

/-! ### Statistic catalogs and category enumerations (lines 70-121) -/

/-- The `statistic` dataclass: display name and optional unit. -/
structure statistic where
  name : String
  unit : Option String
deriving DecidableEq

/-- `tissue_stat_dict` (lines 76-83): statistic code to descriptor, in
insertion order. -/
def tissue_stat_dict : List (String × statistic) :=
  [("AREA", ⟨"Area", some "μm<sup>2</sup>"⟩),
   ("REGION_COUNT", ⟨"Region count", none⟩),
   ("LARGEST_FILLED_AREA", ⟨"Largest filled area", some "μm<sup>2</sup>"⟩),
   ("AVG_ECCENTRICITY", ⟨"Average eccentricity", none⟩)]

/-- `cell_stat_dict` (lines 86-90). -/
def cell_stat_dict : List (String × statistic) :=
  [("CELL_PERC", ⟨"Percentage of total number of cells", some "%"⟩),
   ("CELL_DENS", ⟨"Density of cells", some "cells/μm<sup>2</sup>"⟩),
   ("CELL_COUNT", ⟨"Cell count", none⟩)]

/-- `neighborhood_stat_dict` (lines 93-97). -/
def neighborhood_stat_dict : List (String × statistic) :=
  [("RATIO", ⟨"Ratio of cells", none⟩),
   ("DENSITY", ⟨"Density of cells", some "cells/μm<sup>2</sup>"⟩),
   ("AVG_MIN_DISTANCE", ⟨"Average minimum distance of cells", some "μm"⟩)]

/-- `tissue_classes` (lines 100-108). -/
def tissue_classes : List String :=
  ["Carcinoma", "Stroma", "Necrosis", "Blood", "Vessel",
   "Epithelial tissue", "Other"]

/-- `cell_classes` (lines 111-121). -/
def cell_classes : List String :=
  ["Carcinoma cell", "Lymphocyte", "Macrophage", "Granulocyte",
   "Plasma cell", "Epithelial cell", "Endothelial cell", "Fibroblast",
   "Other"]

/-- `tissue_all` (line 302). -/
def tissue_all : String := "All tissue types"

/-! ### Column-name templates

Every template in the notebook is an f-string with exactly one literal
placeholder `\x7b\x7d`; `template.format(x)` therefore concatenates the text
before the placeholder, `x`, and the text after it.  A template is
embedded as that before/after pair. -/

structure ColumnTemplate where
  pre : String
  post : String
deriving DecidableEq

/-- Python `template.format(x)` for a single-placeholder template. -/
def ColumnTemplate.format (t : ColumnTemplate) (x : String) : String :=
  t.pre ++ x ++ t.post

/-- The template rendered back as the literal string containing `\x7b\x7d`
(used as a plot subtitle in the source). -/
def ColumnTemplate.toStr (t : ColumnTemplate) : String :=
  t.pre ++ "\x7b\x7d" ++ t.post

/-- `to_allcaps` applied to the template string.  Since `to_allcaps` acts
character-wise and fixes the brace characters, uppercasing the joined
template string is the same as uppercasing the two halves. -/
def ColumnTemplate.allcaps (t : ColumnTemplate) : ColumnTemplate :=
  ⟨to_allcaps t.pre, to_allcaps t.post⟩

theorem allcaps_toStr (t : ColumnTemplate) :
    to_allcaps t.toStr = t.allcaps.toStr := by
  have hbrace : to_allcaps "\x7b\x7d" = "\x7b\x7d" := by decide
  simp [ColumnTemplate.toStr, ColumnTemplate.allcaps, to_allcaps_append, hbrace]

/-! ### Column-name resolvers -/

/-- `plot_tissue_areas` (line 270): `column_format = f"{statistic}_\x7b\x7d"`. -/
def tissue_column_format (statistic : String) : ColumnTemplate :=
  ⟨statistic ++ "_", ""⟩

/-- `plot_tissue_areas` (line 271):
`cols = {column_format.format(to_allcaps(cls)): cls for cls in tissue_classes}`,
with the class list a parameter (the source closes over `tissue_classes`). -/
def tissue_cols_over (classes : List String) (statistic : String) :
    List (String × String) :=
  classes.map fun cls => ((tissue_column_format statistic).format (to_allcaps cls), cls)

def tissue_cols (statistic : String) : List (String × String) :=
  tissue_cols_over tissue_classes statistic

/-- `plot_cell_stat` (lines 357-361): the template depends on whether the
tissue qualifier is `tissue_all`. -/
def cell_column_format (tissue_type statistic : String) : ColumnTemplate :=
  if tissue_type = tissue_all then ⟨statistic ++ "_", ""⟩
  else ⟨statistic ++ "_", "_" ++ to_allcaps tissue_type⟩

/-- `plot_cell_stat` (lines 366-369):
`columns = {column_format.format(to_allcaps(cell_class)): cell_class for cell_class in cell_classes}`. -/
def cell_columns_over (classes : List String) (tissue_type statistic : String) :
    List (String × String) :=
  classes.map fun cell_class =>
    ((cell_column_format tissue_type statistic).format (to_allcaps cell_class), cell_class)

def cell_columns (tissue_type statistic : String) : List (String × String) :=
  cell_columns_over cell_classes tissue_type statistic

/-- `plot_neighborhood_stat` (lines 484-486): the raw f-string
`f"{statistic}_OF_\x7b\x7dS_AROUND_{cell_class_a}_IN_{roi}_{radius}"` before
`to_allcaps` is applied to it. -/
def nb_raw_template (statistic cell_class_a roi : String) (radius : Nat) :
    ColumnTemplate :=
  ⟨statistic ++ "_OF_",
   "S_AROUND_" ++ cell_class_a ++ "_IN_" ++ roi ++ "_" ++ toString radius⟩

/-- `column = to_allcaps(f"{statistic}_OF_\x7b\x7dS_AROUND_{cell_class_a}_IN_{roi}_{radius}")`. -/
def nb_column (statistic cell_class_a roi : String) (radius : Nat) :
    ColumnTemplate :=
  (nb_raw_template statistic cell_class_a roi radius).allcaps

/-- `plot_neighborhood_stat` (lines 489-492):
`columns_to_labels = {to_allcaps(column.format(cell_class_b)): cell_class_b for cell_class_b in cell_classes}`. -/
def nb_columns_to_labels_over (classes : List String)
    (cell_class_a roi statistic : String) (radius : Nat) :
    List (String × String) :=
  classes.map fun cell_class_b =>
    (to_allcaps ((nb_column statistic cell_class_a roi radius).format cell_class_b),
     cell_class_b)

def nb_columns_to_labels (cell_class_a roi statistic : String) (radius : Nat) :
    List (String × String) :=
  nb_columns_to_labels_over cell_classes cell_class_a roi statistic radius

/-! ### Mode flag (line 10) -/

/-- Truthiness of `mo.cli_args().get("print") or True` (line 10).
`get` yields `none` when the flag is absent; `x or True` evaluates to `x`
when `x` is truthy and to `True` otherwise, so its truthiness is
`truthiness x || true`. -/
def print_mode_of (flag : Option Bool) : Bool :=
  match flag with
  | some b => b || true
  | none => true

inductive Mode where
  | batch
  | interactive
deriving DecidableEq

/-- The branch taken by `display_tissue_graph`, `display_cell_graphs` and
`display_neighbourbood_graphs` (`if print_mode: ... else ...`). -/
def display_mode (flag : Option Bool) : Mode :=
  if print_mode_of flag then Mode.batch else Mode.interactive

/-! ### Data load (lines 135-152) -/

/-- `load_readouts_data`: the parsed CSV rows come in; the function binds
`n_initial = len(df)` and then executes `assert n_initial == len(df)`
(`none` models the raised `AssertionError`). -/
def load_readouts_data (rows : List (List String)) : Option (List (List String)) :=
  let df := rows
  let n_initial := df.length
  if n_initial = df.length then some df else none

/-! ### Reshape-and-plot (`plot_boxplot`, lines 167-221) -/

/-- `plot_boxplot` lines 192-194: `y_label = stat.name.capitalize()`,
then the unit appended in parentheses only when present. -/
def y_label (stat : statistic) : String :=
  match stat.unit with
  | some u => pyCapitalize stat.name ++ " (" ++ u ++ ")"
  | none => pyCapitalize stat.name

/-- The rendered figure data the claims are about: its final title and
y-axis label. -/
structure Figure where
  title : String
  yLabel : String
deriving DecidableEq

/-- `plot_boxplot` title logic (lines 196-201) plus the y-label, with the
global `plot_index` passed and returned explicitly: in print mode the
title is prefixed with `f"{plot_index}. "` and the index incremented. -/
def plot_boxplot (print_mode : Bool) (plot_index : Nat) (stat : statistic)
    (title : String) (subtitle : Option String) : Figure × Nat :=
  let t := pyCapitalize ("Distribution of " ++ title)
  let t := match subtitle with
    | some sub => t ++ "<br><sub>Data from column(s): " ++ sub ++ "</sub>"
    | none => t
  if print_mode then
    (⟨toString plot_index ++ ". " ++ t, y_label stat⟩, plot_index + 1)
  else
    (⟨t, y_label stat⟩, plot_index)

/-! ### Sub-table extraction -/

/-- `df[keys]` on a dataframe whose columns are `schema`: pandas raises
`KeyError` when any requested column is missing; otherwise it returns the
sub-table (here: the selected column names). -/
def df_select (schema : List String) (keys : List String) :
    Option (List String) :=
  if keys.all schema.contains then some keys else none

/-! ### Plot functions (lines 269-283, 354-381, 479-505) -/

/-- `plot_tissue_areas` (lines 269-283), with the dataframe schema a
parameter and `none` for a raised `KeyError`. -/
def plot_tissue_areas (schema : List String) (print_mode : Bool)
    (plot_index : Nat) (statistic : String) : Option (Figure × Nat) :=
  let column_format := tissue_column_format statistic
  let cols := tissue_cols statistic
  match df_select schema (cols.map Prod.fst) with
  | none => none
  | some _ =>
    match tissue_stat_dict.lookup statistic with
    | none => none
    | some stat =>
      let title := stat.name ++ " of a specific tissue type per slide"
      some (plot_boxplot print_mode plot_index stat title (some column_format.toStr))

/-- `plot_cell_stat` (lines 354-381). -/
def plot_cell_stat (schema : List String) (print_mode : Bool)
    (plot_index : Nat) (tissue_type statistic : String) :
    Option (Figure × Nat) :=
  match cell_stat_dict.lookup statistic with
  | none => none
  | some stat =>
    let column_format := cell_column_format tissue_type statistic
    let title :=
      if tissue_type = tissue_all then
        stat.name ++ " of a specific class per slide"
      else
        stat.name ++ " of a specific class within " ++ tissue_type ++
          " area per slide"
    let columns := cell_columns tissue_type statistic
    match df_select schema (columns.map Prod.fst) with
    | none => none
    | some _ =>
      some (plot_boxplot print_mode plot_index stat title (some column_format.toStr))

/-- `plot_neighborhood_stat` (lines 479-505). -/
def plot_neighborhood_stat (schema : List String) (print_mode : Bool)
    (plot_index : Nat) (cell_class_a roi statistic : String) (radius : Nat) :
    Option (Figure × Nat) :=
  match neighborhood_stat_dict.lookup statistic with
  | none => none
  | some stat =>
    let column := nb_column statistic cell_class_a roi radius
    let columns_to_labels := nb_columns_to_labels cell_class_a roi statistic radius
    match df_select schema (columns_to_labels.map Prod.fst) with
    | none => none
    | some _ =>
      let title := stat.name ++ " of a specific class in a " ++ toString radius ++
        " μm radius of<br>" ++ cell_class_a ++ "s within " ++ roi ++
        " area per slide"
      some (plot_boxplot print_mode plot_index stat title (some column.toStr))

/-! ### Dropdown options (lines 304-308, 408-416) -/

/-- `tissue_type_dropdown` options (lines 304-308):
`set([tissue_all] + tissue_classes).difference({"Necrosis", "Blood"})`,
modelled as the list with the removed elements filtered out (only
membership matters for a Python set). -/
def tissue_type_dropdown_options : List String :=
  (tissue_all :: tissue_classes).filter fun c =>
    !(c == "Necrosis" || c == "Blood")

/-- `roi_dropdown` options (lines 412-414):
`set(tissue_classes).difference({"Necrosis", "Blood"})`. -/
def roi_dropdown_options : List String :=
  tissue_classes.filter fun c => !(c == "Necrosis" || c == "Blood")

/-- `cell_class_a_dropdown` options (lines 408-410): `cell_classes`. -/
def cell_class_a_dropdown_options : List String := cell_classes

/-! ### Print-mode presets (lines 13-30) and batch rendering -/

inductive Preset where
  | tissue (statistic : String)
  | cell (statistic tissue_type : String)
  | neighborhood (cell_class_a roi statistic : String) (radius : Nat)
deriving DecidableEq

/-- `print_mode_graph_settings["tissue"]` (line 14). -/
def print_mode_graph_settings_tissue : List Preset := [.tissue "AREA"]

/-- `print_mode_graph_settings["cell"]` (lines 15-19). -/
def print_mode_graph_settings_cell : List Preset :=
  [.cell "CELL_PERC" "All tissue types",
   .cell "CELL_DENS" "Carcinoma",
   .cell "CELL_DENS" "Stroma"]

/-- `print_mode_graph_settings["neighborhood"]` (lines 20-29): the list
comprehension iterates radii in the outer loop and the statistic codes of
`neighborhood_stat_dict` (insertion order) in the inner loop. -/
def print_mode_graph_settings_neighborhood : List Preset :=
  ([20, 40] : List Nat).flatMap fun radius =>
    (neighborhood_stat_dict.map Prod.fst).map fun statistic =>
      .neighborhood "Carcinoma cell" "Carcinoma" statistic radius

/-- The ordered preset list rendered in print mode: the tissue section,
then the cell section, then the neighborhood section, in the notebook's
document order. -/
def print_mode_presets : List Preset :=
  print_mode_graph_settings_tissue ++ print_mode_graph_settings_cell ++
    print_mode_graph_settings_neighborhood

/-- Dispatch one preset's kwargs to the matching plot function. -/
def render_preset (schema : List String) (print_mode : Bool) (p : Preset)
    (plot_index : Nat) : Option (Figure × Nat) :=
  match p with
  | .tissue statistic => plot_tissue_areas schema print_mode plot_index statistic
  | .cell statistic tissue_type =>
      plot_cell_stat schema print_mode plot_index tissue_type statistic
  | .neighborhood cell_class_a roi statistic radius =>
      plot_neighborhood_stat schema print_mode plot_index cell_class_a roi
        statistic radius

/-- Sequential print-mode rendering of a preset list, threading the global
`plot_index`; an uncaught error in any preset aborts the whole render. -/
def render_batch (schema : List String) (print_mode : Bool) :
    List Preset → Nat → Option (List Figure × Nat)
  | [], plot_index => some ([], plot_index)
  | p :: ps, plot_index =>
    match render_preset schema print_mode p plot_index with
    | none => none
    | some (fig, iNext) =>
      match render_batch schema print_mode ps iNext with
      | none => none
      | some (figs, iEnd) => some (fig :: figs, iEnd)

/-- The constructed column names a preset needs from the table. -/
def preset_columns : Preset → List String
  | .tissue statistic => (tissue_cols statistic).map Prod.fst
  | .cell statistic tissue_type => (cell_columns tissue_type statistic).map Prod.fst
  | .neighborhood cell_class_a roi statistic radius =>
      (nb_columns_to_labels cell_class_a roi statistic radius).map Prod.fst

/-- A table schema holding every column the print-mode presets construct. -/
def full_schema : List String := print_mode_presets.flatMap preset_columns

/-! ### Helper lemmas about the resolvers -/

/-- The second `to_allcaps` in `plot_neighborhood_stat` commutes with the
substitution, because the template halves are already `to_allcaps` images. -/
theorem nb_key_eq (statistic cell_class_a roi : String) (radius : Nat)
    (c : String) :
    to_allcaps ((nb_column statistic cell_class_a roi radius).format c) =
      (nb_column statistic cell_class_a roi radius).format (to_allcaps c) := by
  unfold nb_column ColumnTemplate.allcaps ColumnTemplate.format
  simp [to_allcaps_append, to_allcaps_idem]

theorem nodup_format_keys (t : ColumnTemplate) (l : List String)
    (h : (l.map to_allcaps).Nodup) :
    (l.map fun c => t.format (to_allcaps c)).Nodup := by
  have heq : (l.map fun c => t.format (to_allcaps c)) =
      (l.map to_allcaps).map fun x => t.pre ++ x ++ t.post := by
    simp [List.map_map, ColumnTemplate.format, Function.comp]
  rw [heq]
  exact h.map fun x y hxy => to_allcaps_inj_affix hxy

theorem tissue_allcaps_nodup : (tissue_classes.map to_allcaps).Nodup := by decide

theorem cell_allcaps_nodup : (cell_classes.map to_allcaps).Nodup := by decide

theorem tissue_keys_eq (statistic : String) :
    (tissue_cols statistic).map Prod.fst =
      tissue_classes.map fun c =>
        (tissue_column_format statistic).format (to_allcaps c) := by
  simp [tissue_cols, tissue_cols_over, List.map_map, Function.comp, Function.comp_def]

theorem cell_keys_eq (tissue_type statistic : String) :
    (cell_columns tissue_type statistic).map Prod.fst =
      cell_classes.map fun c =>
        (cell_column_format tissue_type statistic).format (to_allcaps c) := by
  simp [cell_columns, cell_columns_over, List.map_map, Function.comp, Function.comp_def]

theorem nb_keys_eq (cell_class_a roi statistic : String) (radius : Nat) :
    (nb_columns_to_labels cell_class_a roi statistic radius).map Prod.fst =
      cell_classes.map fun c =>
        (nb_column statistic cell_class_a roi radius).format (to_allcaps c) := by
  simp only [nb_columns_to_labels, nb_columns_to_labels_over, List.map_map]
  exact List.map_congr_left fun c _ => by simp [Function.comp, Function.comp_def, nb_key_eq]

/-! ### Claim theorems -/

/-- Claim C1 (code bug): the claim says the print flag selects between the
interactive and batch branches and both are reachable, but line 10 computes
`print_mode = mo.cli_args().get("print") or True`, which is truthy for
every flag value (absent, false, or true), so the batch branch is always
taken and the interactive branch is unreachable. -/
theorem print_flag_never_selects_interactive :
    display_mode none = Mode.batch ∧
      display_mode (some false) = Mode.batch ∧
      ∀ flag : Option Bool, display_mode flag = Mode.batch := by
  refine ⟨rfl, rfl, fun flag => ?_⟩
  cases flag <;> simp [display_mode, print_mode_of]

/-- Claim C2 (code bug): the claim says a duplicate slide row makes the
post-load check fail, but the source binds `n_initial = len(df)` and then
asserts `n_initial == len(df)`, comparing the length with itself: the
check passes on every input, including a table with a duplicated row. -/
theorem load_check_never_fails :
    (∀ rows : List (List String), load_readouts_data rows = some rows) ∧
      load_readouts_data [["slide-1"], ["slide-1"]] =
        some [["slide-1"], ["slide-1"]] ∧
      ([["slide-1"], ["slide-1"]] : List (List String)).dedup.length <
        ([["slide-1"], ["slide-1"]] : List (List String)).length := by
  refine ⟨fun rows => ?_, by decide, by decide⟩
  simp [load_readouts_data]

/-- Claim C3: for every statistic code and every qualifier combination,
each resolver yields exactly one constructed column name per category of
its enumeration (the label list is exactly the enumeration), the
constructed names are pairwise distinct, and the enumerations themselves
are duplicate-free — so the name/label association is a bijection. -/
theorem resolver_output_is_bijection
    (statistic tissue_type cell_class_a roi : String) (radius : Nat) :
    ((tissue_cols statistic).map Prod.snd = tissue_classes ∧
      ((tissue_cols statistic).map Prod.fst).Nodup) ∧
    ((cell_columns tissue_type statistic).map Prod.snd = cell_classes ∧
      ((cell_columns tissue_type statistic).map Prod.fst).Nodup) ∧
    ((nb_columns_to_labels cell_class_a roi statistic radius).map Prod.snd =
        cell_classes ∧
      ((nb_columns_to_labels cell_class_a roi statistic radius).map
          Prod.fst).Nodup) ∧
    tissue_classes.Nodup ∧ cell_classes.Nodup := by
  refine ⟨⟨?_, ?_⟩, ⟨?_, ?_⟩, ⟨?_, ?_⟩, by decide, by decide⟩
  · simp [tissue_cols, tissue_cols_over, List.map_map, Function.comp, Function.comp_def]
  · rw [tissue_keys_eq]
    exact nodup_format_keys _ _ tissue_allcaps_nodup
  · simp [cell_columns, cell_columns_over, List.map_map, Function.comp, Function.comp_def]
  · rw [cell_keys_eq]
    exact nodup_format_keys _ _ cell_allcaps_nodup
  · simp [nb_columns_to_labels, nb_columns_to_labels_over, List.map_map,
      Function.comp, Function.comp_def]
  · rw [nb_keys_eq]
    exact nodup_format_keys _ _ cell_allcaps_nodup

/-- Claim C4: with the `"All tissue types"` qualifier the cell resolver
omits the tissue suffix — every constructed name is
`{STAT}_{allcaps(CLS)}` — and resolving `("CELL_DENS", All tissue types)`
over `["Carcinoma cell", "Lymphocyte"]` yields exactly the mapping the
claim states. -/
theorem all_tissue_types_omits_suffix :
    (∀ (statistic : String) (classes : List String),
      cell_columns_over classes tissue_all statistic =
        classes.map fun cls => (statistic ++ "_" ++ to_allcaps cls, cls)) ∧
    cell_columns_over ["Carcinoma cell", "Lymphocyte"] tissue_all "CELL_DENS" =
      [("CELL_DENS_CARCINOMA_CELL", "Carcinoma cell"),
       ("CELL_DENS_LYMPHOCYTE", "Lymphocyte")] := by
  constructor
  · intro statistic classes
    simp [cell_columns_over, cell_column_format, ColumnTemplate.format,
      String.append_empty]
  · decide

/-- Claim C6: substituting the re-uppercased label back into the template
that produced a constructed name reproduces that name, for all three
resolvers and all qualifier values. -/
theorem label_roundtrip_reproduces_name
    (statistic tissue_type cell_class_a roi : String) (radius : Nat) :
    ((tissue_cols statistic).map
        (fun p => (tissue_column_format statistic).format (to_allcaps p.2)) =
      (tissue_cols statistic).map Prod.fst) ∧
    ((cell_columns tissue_type statistic).map
        (fun p => (cell_column_format tissue_type statistic).format
          (to_allcaps p.2)) =
      (cell_columns tissue_type statistic).map Prod.fst) ∧
    ((nb_columns_to_labels cell_class_a roi statistic radius).map
        (fun p => (nb_column statistic cell_class_a roi radius).format
          (to_allcaps p.2)) =
      (nb_columns_to_labels cell_class_a roi statistic radius).map Prod.fst) := by
  refine ⟨?_, ?_, ?_⟩ <;>
    simp [tissue_cols, tissue_cols_over, cell_columns, cell_columns_over,
      nb_columns_to_labels, nb_columns_to_labels_over, List.map_map,
      Function.comp, Function.comp_def, nb_key_eq]

/-- Claim C10: `to_allcaps` is idempotent on every string, and therefore
the neighborhood resolver's double normalization (template uppercased
first, whole substituted name uppercased again) agrees with a single
normalization of the fully substituted raw template. -/
theorem to_allcaps_idempotent :
    (∀ s : String, to_allcaps (to_allcaps s) = to_allcaps s) ∧
    ∀ (statistic cell_class_a roi : String) (radius : Nat) (cls : String),
      to_allcaps ((nb_column statistic cell_class_a roi radius).format cls) =
        to_allcaps ((nb_raw_template statistic cell_class_a roi radius).format cls) := by
  refine ⟨to_allcaps_idem, fun statistic a roi radius cls => ?_⟩
  unfold nb_column ColumnTemplate.allcaps ColumnTemplate.format
  simp [to_allcaps_append, to_allcaps_idem]

/-! ### Index-threading lemmas for batch rendering -/

theorem render_preset_all_index (schema : List String) (p : Preset) (i : Nat) :
    (render_preset schema true p i).all (fun r => r.2 == i + 1) = true := by
  cases p <;>
    simp only [render_preset, plot_tissue_areas, plot_cell_stat,
      plot_neighborhood_stat, plot_boxplot] <;>
    (repeat' split) <;> simp_all

theorem render_batch_all_index (schema : List String) (ps : List Preset) :
    ∀ i : Nat,
      (render_batch schema true ps i).all
        (fun r => r.2 == i + r.1.length) = true := by
  induction ps with
  | nil => intro i; simp [render_batch]
  | cons p ps ih =>
    intro i
    simp only [render_batch]
    cases hp : render_preset schema true p i with
    | none => simp [hp]
    | some fr =>
      obtain ⟨fig, j⟩ := fr
      have hj : j = i + 1 := by
        have h := render_preset_all_index schema p i
        rw [hp] at h
        simpa using h
      cases hb : render_batch schema true ps j with
      | none => simp [hb]
      | some r =>
        obtain ⟨figs, k⟩ := r
        have hk : k = j + figs.length := by
          have h2 := ih j
          rw [hb] at h2
          simpa using h2
        simp [hb]
        omega

/-- Claim C5: print-mode rendering of the ten presets (1 tissue + 3 cell +
6 neighborhood) yields exactly ten figures whose titles carry the prefixes
"1. " through "10. " in preset-list order, the shared plot index ending at
11; and in general the index grows by exactly one per rendered figure and
is never reset within a batch (the preset path never reads any widget
state). -/
theorem batch_renders_ten_numbered_figures :
    ((render_batch full_schema true print_mode_presets 1).map
        (fun r => (r.1.length, r.2,
          r.1.enum.all fun ik =>
            (toString (ik.1 + 1) ++ ". ").data.isPrefixOf ik.2.title.data)) =
      some (10, 11, true)) ∧
    ∀ (schema : List String) (ps : List Preset) (i : Nat),
      (render_batch schema true ps i).all
        (fun r => r.2 == i + r.1.length) = true :=
  ⟨by decide, fun schema ps i => render_batch_all_index schema ps i⟩

/-! ### Missing-column behaviour -/

theorem df_select_none {schema keys : List String}
    (h : ∃ k ∈ keys, k ∉ schema) : df_select schema keys = none := by
  unfold df_select
  rw [if_neg]
  intro hall
  obtain ⟨k, hk, hn⟩ := h
  rw [List.all_eq_true] at hall
  exact hn (by simpa using hall k hk)

theorem df_select_some {schema keys : List String}
    (h : ∀ k ∈ keys, k ∈ schema) : df_select schema keys = some keys := by
  unfold df_select
  rw [if_pos]
  rw [List.all_eq_true]
  intro k hk
  simpa using h k hk

/-- Claim C7: if the resolver constructs a column name missing from the
table schema, the sub-table extraction fails as an uncaught missing-key
condition and the invocation yields no figure (no partial figure, no
skip); when the statistic is in its catalog and every constructed name is
present, a figure is produced. Stated for every plot invocation:
`plot_tissue_areas`, `plot_cell_stat` and `plot_neighborhood_stat`. -/
theorem missing_column_yields_no_figure (schema : List String)
    (tissue_type statistic cell_class_a roi : String) (radius : Nat)
    (print_mode : Bool) (plot_index : Nat) :
    ((∃ k ∈ (tissue_cols statistic).map Prod.fst, k ∉ schema) →
      plot_tissue_areas schema print_mode plot_index statistic = none) ∧
    ((∃ k ∈ (cell_columns tissue_type statistic).map Prod.fst, k ∉ schema) →
      plot_cell_stat schema print_mode plot_index tissue_type statistic =
        none) ∧
    ((∃ k ∈ (nb_columns_to_labels cell_class_a roi statistic radius).map
        Prod.fst, k ∉ schema) →
      plot_neighborhood_stat schema print_mode plot_index cell_class_a roi
        statistic radius = none) ∧
    (∀ stat, tissue_stat_dict.lookup statistic = some stat →
      (∀ k ∈ (tissue_cols statistic).map Prod.fst, k ∈ schema) →
      ∃ fig iNext,
        plot_tissue_areas schema print_mode plot_index statistic =
          some (fig, iNext)) ∧
    (∀ stat, cell_stat_dict.lookup statistic = some stat →
      (∀ k ∈ (cell_columns tissue_type statistic).map Prod.fst, k ∈ schema) →
      ∃ fig iNext,
        plot_cell_stat schema print_mode plot_index tissue_type statistic =
          some (fig, iNext)) ∧
    (∀ stat, neighborhood_stat_dict.lookup statistic = some stat →
      (∀ k ∈ (nb_columns_to_labels cell_class_a roi statistic radius).map
          Prod.fst, k ∈ schema) →
      ∃ fig iNext,
        plot_neighborhood_stat schema print_mode plot_index cell_class_a roi
          statistic radius = some (fig, iNext)) := by
  refine ⟨fun h => ?_, fun h => ?_, fun h => ?_, fun stat hstat h => ?_,
    fun stat hstat h => ?_, fun stat hstat h => ?_⟩
  · unfold plot_tissue_areas
    simp only [df_select_none h]
  · unfold plot_cell_stat
    cases hs : cell_stat_dict.lookup statistic with
    | none => rfl
    | some stat => simp only [df_select_none h]
  · unfold plot_neighborhood_stat
    cases hs : neighborhood_stat_dict.lookup statistic with
    | none => rfl
    | some stat => simp only [df_select_none h]
  · unfold plot_tissue_areas
    simp only [df_select_some h, hstat]
    exact ⟨_, _, rfl⟩
  · unfold plot_cell_stat
    rw [hstat]
    simp only [df_select_some h]
    exact ⟨_, _, rfl⟩
  · unfold plot_neighborhood_stat
    rw [hstat]
    simp only [df_select_some h]
    exact ⟨_, _, rfl⟩

/-- Witness for the previous theorem: over the empty schema the `"AREA"`,
`("CELL_DENS", "Carcinoma")` and `"RATIO"` invocations produce no figure,
and over a schema holding all preset columns each produces one. -/
theorem missing_column_yields_no_figure_witness :
    plot_tissue_areas [] true 1 "AREA" = none ∧
    plot_cell_stat [] true 1 "Carcinoma" "CELL_DENS" = none ∧
    plot_neighborhood_stat [] true 1 "Carcinoma cell" "Carcinoma" "RATIO" 20 =
      none ∧
    (∃ fig iNext,
      plot_tissue_areas full_schema true 1 "AREA" = some (fig, iNext)) ∧
    (∃ fig iNext,
      plot_cell_stat full_schema true 1 "Carcinoma" "CELL_DENS" =
        some (fig, iNext)) ∧
    (∃ fig iNext,
      plot_neighborhood_stat full_schema true 1 "Carcinoma cell" "Carcinoma"
        "RATIO" 20 = some (fig, iNext)) := by
  refine ⟨?_, ?_, ?_, ?_, ?_, ?_⟩
  · exact (missing_column_yields_no_figure [] "Carcinoma" "AREA"
      "Carcinoma cell" "Carcinoma" 20 true 1).1 (by decide)
  · exact (missing_column_yields_no_figure [] "Carcinoma" "CELL_DENS"
      "Carcinoma cell" "Carcinoma" 20 true 1).2.1 (by decide)
  · exact (missing_column_yields_no_figure [] "Carcinoma" "RATIO"
      "Carcinoma cell" "Carcinoma" 20 true 1).2.2.1 (by decide)
  · exact (missing_column_yields_no_figure full_schema "Carcinoma" "AREA"
      "Carcinoma cell" "Carcinoma" 20 true 1).2.2.2.1
      ⟨"Area", some "μm<sup>2</sup>"⟩ (by decide) (by decide)
  · exact (missing_column_yields_no_figure full_schema "Carcinoma" "CELL_DENS"
      "Carcinoma cell" "Carcinoma" 20 true 1).2.2.2.2.1
      ⟨"Density of cells", some "cells/μm<sup>2</sup>"⟩ (by decide) (by decide)
  · exact (missing_column_yields_no_figure full_schema "Carcinoma" "RATIO"
      "Carcinoma cell" "Carcinoma" 20 true 1).2.2.2.2.2
      ⟨"Ratio of cells", none⟩ (by decide) (by decide)

/-- Claim C8 counterexample: "Necrosis" (and likewise "Blood") is a member
of the tissue-class enumeration used for column construction, yet neither
the tissue-type dropdown nor the ROI dropdown offers it, refuting the
claim that every member of the enumeration is a selectable option. -/
theorem necrosis_in_enumeration_not_in_dropdowns :
    "Necrosis" ∈ tissue_classes ∧
      "Necrosis" ∉ tissue_type_dropdown_options ∧
      "Necrosis" ∉ roi_dropdown_options ∧
      "Blood" ∈ tissue_classes ∧
      "Blood" ∉ tissue_type_dropdown_options := by decide

/-- Claim C8 as amended: the tissue-type dropdown offers "All tissue
types" and every tissue class except "Necrosis" and "Blood" (which the
source removes from both tissue dropdowns), the ROI dropdown offers the
same tissue classes, and the cell-class dropdown offers every cell
class. -/
theorem dropdowns_cover_enumerations_except_removed :
    tissue_all ∈ tissue_type_dropdown_options ∧
    (tissue_classes.all fun c =>
      (c == "Necrosis" || c == "Blood") ||
        (tissue_type_dropdown_options.contains c &&
          roi_dropdown_options.contains c)) = true ∧
    (cell_classes.all fun c => cell_class_a_dropdown_options.contains c) =
      true := by decide

/-- Claim C9: over the statistic descriptors of the three catalogs, the
derived y-axis label is the display name with the unit appended in
parentheses exactly when a unit is present; in particular the "%"-unit
statistic ends in " (%)" and a unit-less statistic keeps the bare name. -/
theorem y_label_appends_unit_iff_present :
    ((tissue_stat_dict ++ cell_stat_dict ++ neighborhood_stat_dict).map
        Prod.snd).all
      (fun stat =>
        y_label stat ==
          stat.name ++ (match stat.unit with
            | some u => " (" ++ u ++ ")"
            | none => "")) = true ∧
    y_label ⟨"Percentage of total number of cells", some "%"⟩ =
      "Percentage of total number of cells (%)" ∧
    y_label ⟨"Cell count", none⟩ = "Cell count" := by decide

end DemoNotebook
